import Mathlib

/-!
Verification of the kermi2mqtt bridge (Modbus ⇄ MQTT) against its
natural-language specification.

The development shallowly embeds the Python modules
`kermi2mqtt/bridge.py`, `kermi2mqtt/safety.py` and
`kermi2mqtt/mqtt_client.py`:

* pure helpers (`_should_publish_attribute`, value transformation,
  `RangeValidator`, the enum renaming tables) become Lean functions;
* stateful code (`RateLimiter`, `handle_command`, `poll_and_publish`,
  `reconnect_with_backoff`) becomes explicit state passing: each
  embedded operation consumes the relevant state and the outcomes of
  the external collaborators (Modbus writes, bulk reads, connect
  attempts) and returns the new state together with the list of MQTT
  messages published and the exception, if any, that escapes.

Python `float` values are modelled as `ℚ`.  Because this toolchain's
kernel does not reduce `Rat.add`/`Rat.sub`/`Rat.mul` (they are stuck on
their extern wrappers), the embedding performs rational arithmetic
through `mkRat`-based helpers (`qSub`, `qMul`) that the kernel can
evaluate; lemmas `qSub_eq` and `qMul_eq` identify them with the
standard operations.  For the same reason string manipulation is done
on `String.data` (`List Char`) rather than through the position-based
iterator functions of core.
-/

namespace Kermi2Mqtt

/-! ### Rational helpers (kernel-reducible arithmetic) -/

/-- Subtraction on `ℚ`, written via `mkRat` so that closed instances
reduce in the kernel.  `qSub_eq` shows it is ordinary subtraction. -/
def qSub (a b : ℚ) : ℚ :=
  mkRat (a.num * (b.den : ℤ) - b.num * (a.den : ℤ)) (a.den * b.den)

/-- Multiplication on `ℚ` via `mkRat`; see `qMul_eq`. -/
def qMul (a b : ℚ) : ℚ :=
  mkRat (a.num * b.num) (a.den * b.den)

theorem qSub_eq (a b : ℚ) : qSub a b = a - b := by
  have ha : ((a.den : ℚ)) ≠ 0 := by exact_mod_cast a.den_nz
  have hb : ((b.den : ℚ)) ≠ 0 := by exact_mod_cast b.den_nz
  unfold qSub
  rw [Rat.mkRat_eq_div]
  push_cast
  conv_rhs => rw [← Rat.num_div_den a, ← Rat.num_div_den b, div_sub_div _ _ ha hb]
  ring_nf

theorem qMul_eq (a b : ℚ) : qMul a b = a * b := by
  unfold qMul
  rw [Rat.mkRat_eq_div]
  push_cast
  conv_rhs => rw [← Rat.num_div_den a, ← Rat.num_div_den b, div_mul_div_comm]

/-! ### String helpers (Python `str` operations on `List Char`) -/

/-- Splitting a character list at every occurrence of `sep`; models
Python's `str.split(sep)` for a one-character separator (an empty
string yields `[""]`, separators at the ends yield empty pieces). -/
def splitCharsAux (sep : Char) : List Char → List Char → List String
  | [], acc => [String.mk acc.reverse]
  | c :: rest, acc =>
    if c = sep then String.mk acc.reverse :: splitCharsAux sep rest []
    else splitCharsAux sep rest (c :: acc)

/-- Python `s.split(sep)` for a one-character separator. -/
def pySplit (s : String) (sep : Char) : List String :=
  splitCharsAux sep s.data []

/-- Python `s.startswith(pre)`. -/
def pyStartsWith (s pre : String) : Bool :=
  pre.data.isPrefixOf s.data

/-- Python `s.endswith(suf)`. -/
def pyEndsWith (s suf : String) : Bool :=
  suf.data.isSuffixOf s.data

/-- Python `s.lower()` (ASCII letters, which is all the repo uses). -/
def pyLower (s : String) : String :=
  String.mk (s.data.map Char.toLower)

/-- Python `s.upper()` (ASCII letters, which is all the repo uses). -/
def pyUpper (s : String) : String :=
  String.mk (s.data.map Char.toUpper)

/-- Python `s.strip()` (whitespace at both ends). -/
def pyStrip (s : String) : String :=
  String.mk (((s.data.dropWhile Char.isWhitespace).reverse.dropWhile
    Char.isWhitespace).reverse)

/-- Membership of `sub` as a substring of `s`: Python `sub in s`,
computed on character lists. -/
def charsContain (pat : List Char) : List Char → Bool
  | [] => pat.isEmpty
  | c :: rest => pat.isPrefixOf (c :: rest) || charsContain pat rest

/-- Python `sub in s` for strings. -/
def pyContains (s sub : String) : Bool :=
  charsContain sub.data s.data

/-! ### Python dictionaries as association lists -/

/-- Lookup in a Python `dict`, modelled as an association list
(`dict.get(k)` → `Option`). -/
def lookupAssoc {α : Type} (m : List (String × α)) (k : String) : Option α :=
  (m.find? (fun p => p.1 == k)).map Prod.snd

/-- Store into a Python `dict`: replace the binding for the key if one
exists, otherwise append a fresh one.  Observed only through
`lookupAssoc`, this coincides with `dict.__setitem__`. -/
def setAssoc {α : Type} (m : List (String × α)) (k : String) (v : α) :
    List (String × α) :=
  match m with
  | [] => [(k, v)]
  | p :: rest => if p.1 == k then (k, v) :: rest else p :: setAssoc rest k v

theorem lookupAssoc_setAssoc_self {α : Type} (m : List (String × α))
    (k : String) (v : α) : lookupAssoc (setAssoc m k v) k = some v := by
  induction m with
  | nil => simp [lookupAssoc, setAssoc, List.find?]
  | cons p rest ih =>
    by_cases hp : p.1 = k
    · simp [lookupAssoc, setAssoc, List.find?, hp]
    · have hp' : (p.1 == k) = false := by simp [hp]
      simp only [setAssoc, hp', if_false]
      simpa [lookupAssoc, List.find?, hp'] using ih

theorem lookupAssoc_setAssoc_other {α : Type} (m : List (String × α))
    (k k' : String) (v : α) (hne : k' ≠ k) :
    lookupAssoc (setAssoc m k v) k' = lookupAssoc m k' := by
  have hk' : (k == k') = false := by simp [Ne.symm hne]
  induction m with
  | nil => simp [lookupAssoc, setAssoc, List.find?, hk']
  | cons p rest ih =>
    by_cases hp : p.1 = k
    · have hp' : (p.1 == k) = true := by simp [hp]
      have hpk' : (p.1 == k') = false := by simp [hp, Ne.symm hne]
      simp [lookupAssoc, setAssoc, List.find?, hp', hk', hpk']
    · have hp' : (p.1 == k) = false := by simp [hp]
      by_cases hq : p.1 = k'
      · have h2 : (k' == k) = false := by simp [hne]
        simp [lookupAssoc, setAssoc, List.find?, hp', hq, h2, hne]
      · have hq' : (p.1 == k') = false := by simp [hq]
        simp only [setAssoc, hp', if_false]
        simpa [lookupAssoc, List.find?, hq'] using ih

/-! ### Raw protocol values

A value read from (or written to) the Modbus collaborator is a Python
scalar: `int`, `float`, `bool` or `str`.  `float` is modelled as `ℚ`. -/

inductive RawValue where
  | rint (n : ℤ)
  | rfloat (q : ℚ)
  | rbool (b : Bool)
  | rstr (s : String)
deriving DecidableEq

/-- Python numeric value of a scalar, for `==` comparisons and enum
lookup (`True == 1`, strings are not numbers). -/
def pyNum : RawValue → Option ℚ
  | .rint n => some (n : ℚ)
  | .rfloat q => some q
  | .rbool b => some (if b then 1 else 0)
  | .rstr _ => none

/-- Fraction-less decimal digits to a natural number. -/
def digitsVal (l : List Char) : ℕ :=
  l.foldl (fun acc c => acc * 10 + (c.toNat - 48)) 0

/-- Python `float(s)` on a string: optional sign, decimal digits with
an optional single point (`"75"`, `"3.5"`, `".5"`, `"5."`).  The
exotic inputs `float` also accepts (exponents, `inf`, `nan`,
underscores) are not modelled; they only affect which payloads count
as parse failures. -/
def parsePyFloat (s : String) : Option ℚ :=
  let t := pyStrip s
  let body :=
    if pyStartsWith t "-" || pyStartsWith t "+" then t.data.drop 1 else t.data
  let neg := pyStartsWith t "-"
  match splitCharsAux '.' body [] with
  | [a] =>
    if !a.data.isEmpty && a.data.all Char.isDigit then
      let v : ℚ := (digitsVal a.data : ℕ)
      some (if neg then -v else v)
    else none
  | [a, b] =>
    if (!a.data.isEmpty || !b.data.isEmpty) && a.data.all Char.isDigit
        && b.data.all Char.isDigit then
      let v : ℚ := mkRat ((digitsVal a.data * 10 ^ b.data.length
        + digitsVal b.data : ℕ) : ℤ) (10 ^ b.data.length)
      some (if neg then -v else v)
    else none
  | _ => none

/-- Python `float(value)` on a raw scalar (used by the sensor sanity
check; parses strings, raises — here `none` — on non-numeric ones). -/
def pyFloatFn : RawValue → Option ℚ
  | .rint n => some (n : ℚ)
  | .rfloat q => some q
  | .rbool b => some (if b then 1 else 0)
  | .rstr s => parsePyFloat s

/-- Python truthiness of a raw scalar. -/
def pyTruthy : RawValue → Bool
  | .rint n => decide (n ≠ 0)
  | .rfloat q => decide (q ≠ 0)
  | .rbool b => b
  | .rstr s => !s.data.isEmpty

/-- Python `value in (0.0, 0, False)` (`==`-based membership, so all
three numeric zeros coincide and `True == 1` is not a member). -/
def isPyZero : RawValue → Bool
  | .rint n => decide (n = 0)
  | .rfloat q => decide (q = 0)
  | .rbool b => !b
  | .rstr _ => false

/-- Python `str(value)`.  The float case is rendered through `ℚ`'s
`toString`; no claim pins down Python's exact float formatting. -/
def pyStr : RawValue → String
  | .rint n => toString n
  | .rfloat q => toString q
  | .rbool b => if b then "True" else "False"
  | .rstr s => s

/-! ### Data model (`models/datapoint.py`, `models/device.py`)

`models/datapoint.py` itself is not among the sources, but every field
of `DeviceAttribute` used by the bridge appears in `mappings.py`
constructor calls and in `bridge.py`/`mqtt_client.py` field reads; the
structure below carries exactly those fields.  A Python enum type
(`value_enum`) is its name together with its value→member-name table. -/

structure EnumSpec where
  name : String
  members : List (ℚ × String)
deriving DecidableEq

/-- Python `EnumClass(value)`: find the member whose value equals the
raw scalar numerically; `none` models the `ValueError` on a miss. -/
def EnumSpec.decodeMember (es : EnumSpec) (v : RawValue) : Option String :=
  match pyNum v with
  | some q => (es.members.find? (fun p => decide (p.1 = q))).map Prod.snd
  | none => none

structure DeviceAttribute where
  device_class : String
  method_name : String
  friendly_name : String
  mqtt_topic_suffix : String
  writable : Bool
  ha_component : String
  value_enum : Option EnumSpec := none
  ha_config : List (String × String) := []
deriving DecidableEq

/-- `KermiDevice` from `models/device.py`.  The wrapped
`xcenter_instance` collaborator object is not part of the state; its
write operations are modelled by the outcome function in `CmdEnv`. -/
structure KermiDevice where
  device_id : String
  device_type : String
  unit_id : ℤ
  attributes : List DeviceAttribute
  mqtt_base_topic : String
  available : Bool
  last_poll : Option ℚ := none
deriving DecidableEq

def KermiDevice.get_mqtt_topic (d : KermiDevice) (attr : DeviceAttribute) :
    String :=
  d.mqtt_base_topic ++ "/" ++ attr.mqtt_topic_suffix

def KermiDevice.get_availability_topic (d : KermiDevice) : String :=
  d.mqtt_base_topic ++ "/availability"

/-! ### `safety.py` -/

structure RangeValidator where
  min_val : ℚ
  max_val : ℚ
  parameter_name : String

/-- `RangeValidator.validate`: reject a value outside the closed
interval with a human-readable reason. -/
def RangeValidator.validate (rv : RangeValidator) (value : ℚ) :
    Bool × String :=
  if !(decide (rv.min_val ≤ value) && decide (value ≤ rv.max_val)) then
    (false, rv.parameter_name ++ " value " ++ toString value ++
      " outside safe range [" ++ toString rv.min_val ++ ", " ++
      toString rv.max_val ++ "]")
  else
    (true, "OK")

/-- `RateLimiter` state: the minimum interval and the `last_write`
dictionary (key → timestamp).  `time.time()` is passed in explicitly
as `now`. -/
structure RateLimiter where
  min_interval : ℚ
  last_write : List (String × ℚ)
deriving DecidableEq

/-- `RateLimiter.can_write`: too-soon writes are rejected with a
remaining-wait message and the state unchanged; otherwise the call
itself records `now` under the key and reports `(True, "OK")`.  The
Python code formats the remaining wait with `:.0f`; the message here
renders it exactly. -/
def RateLimiter.can_write (rl : RateLimiter) (now : ℚ) (parameter : String) :
    Bool × String × RateLimiter :=
  let last := (lookupAssoc rl.last_write parameter).getD 0
  if qSub now last < rl.min_interval then
    (false, "Rate limit: wait " ++ toString (qSub rl.min_interval (qSub now last)) ++
      "s before changing " ++ parameter, rl)
  else
    (true, "OK", { rl with last_write := setAssoc rl.last_write parameter now })

/-- The rule loop of `SafetyValidator.validate`: first failing rule's
error, else `(True, "OK")`. -/
def runRules (rules : List (ℚ → Bool × String)) (value : ℚ) : Bool × String :=
  match rules with
  | [] => (true, "OK")
  | r :: rs => if (r value).1 then runRules rs value else (false, (r value).2)

structure SafetyValidator where
  attribute_name : String
  validation_rules : List (ℚ → Bool × String)
  block_reason : Option String

def SafetyValidator.validate (sv : SafetyValidator) (value : ℚ) :
    Bool × String :=
  match sv.block_reason with
  | some r => (false, r)
  | none => runRules sv.validation_rules value

/-- `create_dhw_validator` from `safety.py`: the DHW setpoint validator
with the single rule `RangeValidator(40.0, 60.0, "DHW temperature")`. -/
def create_dhw_validator : SafetyValidator :=
  { attribute_name := "set_hot_water_setpoint_constant"
    validation_rules := [(RangeValidator.mk 40 60 "DHW temperature").validate]
    block_reason := none }

/-- Modelled from the spec: `bridge.py` invokes
`SafetyValidator.validate_dhw_temperature`, whose definition is not
among the source files (only this caller is).  The spec fixes the
domestic-hot-water setpoint range to `[40, 60]` (biological-safety
floor, scald-prevention ceiling), and `safety.py`'s own
`create_dhw_validator` builds exactly `RangeValidator(40.0, 60.0,
"DHW temperature")`; the missing static method is modelled as that
validator. -/
def validate_dhw_temperature (value : ℚ) : Bool × String :=
  create_dhw_validator.validate value

/-! ### `bridge.py` — attribute filter and publish-side transformation -/

/-- Attributes exclusive to the heating unit (`bridge.py`). -/
def HEATING_ONLY_ATTRIBUTES : List String :=
  ["heating_setpoint", "heating_actual", "heating_circuit_setpoint",
   "heating_circuit_actual", "heating_circuit_status",
   "heating_circuit_operating_mode", "cooling_actual",
   "cooling_mode_active", "t4_temperature", "outdoor_temperature_avg"]

/-- Attributes exclusive to the domestic-hot-water unit (`bridge.py`). -/
def DHW_ONLY_ATTRIBUTES : List String :=
  ["hot_water_setpoint", "hot_water_actual", "hot_water_setpoint_constant"]

/-- `_should_publish_attribute` from `bridge.py`: rule 0 rejects
`None`; rule 0b rejects implausible temperature-sensor readings (a
non-numeric value passes through); rules 1.5/1.6 reject
cross-device-type exclusive attributes regardless of value; rules
1 and 4 both accept everything else (the branches are kept separate,
as in the source). -/
def should_publish_attribute (device_type : String) (attr : DeviceAttribute)
    (value : Option RawValue) : Bool :=
  match value with
  | none => false
  | some v =>
    if attr.ha_component == "sensor"
        && pyContains (pyLower attr.method_name) "temperature"
        && (match pyFloatFn v with
            | some t => decide (t < -50) || decide (t > 100)
            | none => false) then
      false
    else if device_type == "storage_dhw"
        && HEATING_ONLY_ATTRIBUTES.contains attr.method_name then
      false
    else if device_type == "storage_heating"
        && DHW_ONLY_ATTRIBUTES.contains attr.method_name then
      false
    else if !isPyZero v then
      true
    else
      true

/-- Publish-side `EnergyMode` renaming table (`_publish_device_state`). -/
def energy_mode_map : List (String × String) :=
  [("ECO", "eco"), ("NORMAL", "comfort"), ("COMFORT", "boost"),
   ("OFF", "away"), ("CUSTOM", "heat_pump")]

/-- Publish-side `SeasonSelection` renaming table. -/
def season_map : List (String × String) :=
  [("AUTO", "auto"), ("HEATING", "heat"), ("COOLING", "cool"),
   ("OFF", "off")]

/-- Command-side inverse table for `set_season_selection_manual`. -/
def season_reverse_map : List (String × String) :=
  [("auto", "AUTO"), ("heat", "HEATING"), ("cool", "COOLING"),
   ("off", "OFF")]

/-- Command-side inverse table for `set_heating_circuit_energy_mode`
(climate presets plus water-heater aliases). -/
def energy_reverse_map : List (String × String) :=
  [("eco", "ECO"), ("comfort", "NORMAL"), ("boost", "COMFORT"),
   ("away", "OFF"), ("performance", "NORMAL"), ("high_demand", "COMFORT"),
   ("heat_pump", "CUSTOM"), ("off", "OFF")]

/-- The payload computation of `_publish_device_state`: binary sensors
map truthiness to `"ON"`/`"OFF"`; enumerated attributes decode the raw
code through the enum and apply the enum-specific renaming table
(falling back to the lowercased member name, and to `str(value)` when
the code matches no member — the `except (ValueError, KeyError)`
branch); everything else is `str(value)`.  The function is total: no
exception escapes this step. -/
def transform_value (attr : DeviceAttribute) (v : RawValue) : String :=
  if attr.ha_component == "binary_sensor" then
    if pyTruthy v then "ON" else "OFF"
  else
    match attr.value_enum with
    | some es =>
      match es.decodeMember v with
      | some enum_name =>
        if es.name == "EnergyMode" then
          (lookupAssoc energy_mode_map enum_name).getD (pyLower enum_name)
        else if es.name == "SeasonSelection" then
          (lookupAssoc season_map enum_name).getD (pyLower enum_name)
        else
          enum_name
      | none => pyStr v
    | none => pyStr v

/-- One attribute's contribution to `_publish_device_state`: `none`
when the bulk-read bucket has no entry for the attribute's key (the
silently-skipped case) or the filter rejects the value; otherwise the
`(topic, payload)` publish. -/
def publish_attribute (device : KermiDevice)
    (device_data : List (String × RawValue)) (attr : DeviceAttribute) :
    Option (String × String) :=
  match lookupAssoc device_data attr.method_name with
  | none => none
  | some v =>
    if !should_publish_attribute device.device_type attr (some v) then
      none
    else
      some (device.get_mqtt_topic attr, transform_value attr v)

/-- `_publish_device_state`: the publishes for one device, in attribute
order. -/
def publish_device_state (device : KermiDevice)
    (device_data : List (String × RawValue)) : List (String × String) :=
  device.attributes.filterMap (publish_attribute device device_data)

/-! ### `bridge.py` — `poll_and_publish` -/

/-- The bulk result of `modbus.read_all_devices()`: one bucket per
device type (`all_data.get(t, {})` makes a missing bucket the empty
dictionary). -/
structure AllData where
  heat_pump : List (String × RawValue)
  storage_heating : List (String × RawValue)
  storage_dhw : List (String × RawValue)

/-- Bucket selection in `poll_and_publish`; an unknown device type is
logged and skipped (`continue`). -/
def bucketFor (all : AllData) (device_type : String) :
    Option (List (String × RawValue)) :=
  if device_type == "heat_pump" then some all.heat_pump
  else if device_type == "storage_heating" then some all.storage_heating
  else if device_type == "storage_dhw" then some all.storage_dhw
  else none

/-- Observable outcome of one `poll_and_publish` call.
`availabilityAttempted` lists the availability publishes the code
attempts; `availabilityPublished` those that reach the broker (on the
failure path a broker error at index `k` aborts the remaining
attempts and is swallowed).  `raised` is the exception that escapes to
the caller. -/
structure PollResult where
  devices : List KermiDevice
  statePublished : List (String × String)
  availabilityAttempted : List (String × String)
  availabilityPublished : List (String × String)
  raised : Option String

/-- The per-device body of `poll_and_publish`'s success loop: select
the bucket (an unknown device type is logged and skipped by
`continue`), publish the device's state and update `last_poll`. -/
def poll_process (now : ℚ) (all : AllData) (d : KermiDevice) :
    KermiDevice × List (String × String) :=
  match bucketFor all d.device_type with
  | none => (d, [])
  | some bucket =>
    ({ d with last_poll := some now }, publish_device_state d bucket)

/-- `poll_and_publish`: on a successful bulk read each device's bucket
is published and `last_poll` updated, then — only if some device was
marked unavailable (`if not all(d.available ...)`)— every device
becomes available and an online status is published for each; on a
bulk-read exception every device becomes unavailable, an offline
status publish is attempted for each (failures swallowed) and the
exception is re-raised.  `readResult` is the outcome of
`modbus.read_all_devices()`; `offlineFailsAt` the index at which the
best-effort offline publishing dies, if it does. -/
def poll_and_publish (devices : List KermiDevice) (now : ℚ)
    (readResult : Except String AllData) (offlineFailsAt : Option ℕ) :
    PollResult :=
  match readResult with
  | Except.ok all =>
    let processed := devices.map (poll_process now all)
    let devices1 := processed.map Prod.fst
    let pubs := (processed.map Prod.snd).flatten
    let someUnavailable := !devices1.all (fun d => d.available)
    let devicesF :=
      if someUnavailable then devices1.map (fun d => { d with available := true })
      else devices1
    let onl :=
      if someUnavailable then
        devicesF.map (fun d => (d.get_availability_topic, "online"))
      else []
    { devices := devicesF, statePublished := pubs,
      availabilityAttempted := onl, availabilityPublished := onl,
      raised := none }
  | Except.error e =>
    let devices2 := devices.map (fun d => { d with available := false })
    let off := devices2.map (fun d => (d.get_availability_topic, "offline"))
    { devices := devices2, statePublished := [],
      availabilityAttempted := off,
      availabilityPublished :=
        (match offlineFailsAt with
         | none => off
         | some k => off.take k),
      raised := some e }

/-! ### `bridge.py` — `handle_command` -/

/-- The value handed to the protocol write: a parsed float for number
controls, an enum member (by name) for the two select controls, or the
button-press value `1`. -/
inductive ParsedValue where
  | num (q : ℚ)
  | seasonSel (name : String)
  | energyMode (name : String)
  | press
deriving DecidableEq

/-- Environment of one `handle_command` invocation: the bridge's device
list and rate-limiter state, the current clock, and the outcomes of the
external calls the handler makes.

Modelled from the spec: the static methods
`SafetyValidator.validate_heating_curve_offset`,
`validate_season_threshold`, `validate_season_selection` and
`validate_energy_mode` that `bridge.py` invokes are not among the
source files (only this caller is); the spec says only that they are
"similarly bounded" per-parameter validators, so they are abstract
validator parameters here.  `write m v` models
`getattr(device.xcenter_instance, m)(v)`; `confirmPoll` the outcome of
the out-of-band `poll_and_publish` after a successful non-button write
(its own state publishes are not observed at this level). -/
structure CmdEnv where
  devices : List KermiDevice
  rate : RateLimiter
  now : ℚ
  validate_heating_curve_offset : ℚ → Bool × String
  validate_season_threshold : ℚ → Bool × String
  validate_season_selection : String → Bool × String
  validate_energy_mode : String → Bool × String
  write : String → ParsedValue → Except String Unit
  confirmPoll : Except String Unit

/-- `_publish_command_error`: the structured error goes to the command
topic's `/error` subtopic (retain false; a failure of this publish is
itself swallowed, so it is modelled as the produced message). -/
def publish_command_error (command_topic error : String) : String × String :=
  (command_topic ++ "/error", error)

/-- Result of the body of `handle_command`'s outer `try`: the messages
published, the rate-limiter state, the protocol write invoked (if any),
and the exception propagating to the outer handler (if any). -/
structure CmdInner where
  published : List (String × String)
  rate : RateLimiter
  writeCalled : Option (String × ParsedValue)
  raised : Option String

/-- A step failure inside `handle_command`: publish the error and
return (no write, nothing raised). -/
def rejectedWith (topic msg : String) (rl : RateLimiter) : CmdInner :=
  { published := [publish_command_error topic msg], rate := rl,
    writeCalled := none, raised := none }

/-- The write/confirm tail of `handle_command` (its inner `try`): a
failing write publishes `"Write operation failed: …"` and re-raises;
on success, non-button controls settle and trigger the out-of-band
poll, whose exception takes the same inner-failure path. -/
def executeWrite (env : CmdEnv) (topic : String) (attr : DeviceAttribute)
    (v : ParsedValue) (rl : RateLimiter) : CmdInner :=
  match env.write attr.method_name v with
  | Except.error e =>
    { published := [publish_command_error topic ("Write operation failed: " ++ e)],
      rate := rl, writeCalled := some (attr.method_name, v), raised := some e }
  | Except.ok _ =>
    if attr.ha_component == "button" then
      { published := [], rate := rl,
        writeCalled := some (attr.method_name, v), raised := none }
    else
      match env.confirmPoll with
      | Except.error e =>
        { published := [publish_command_error topic ("Write operation failed: " ++ e)],
          rate := rl, writeCalled := some (attr.method_name, v), raised := some e }
      | Except.ok _ =>
        { published := [], rate := rl,
          writeCalled := some (attr.method_name, v), raised := none }

/-- Body of `handle_command`'s outer `try`: topic parsing (malformed
topics dropped silently), device and writable-attribute resolution,
rate limiting, per-component payload parsing and safety validation,
then the protocol write. -/
def handle_command_try (env : CmdEnv) (topic payload : String) : CmdInner :=
  let parts := pySplit topic '/'
  let n := parts.length
  if n < 5 || (parts.getD (n - 3) "") != "controls"
      || (parts.getD (n - 1) "") != "set" then
    { published := [], rate := env.rate, writeCalled := none, raised := none }
  else
    let control_name := parts.getD (n - 2) ""
    match env.devices.find? (fun d => pyStartsWith topic d.mqtt_base_topic) with
    | none => rejectedWith topic ("Device not found for topic: " ++ topic) env.rate
    | some device =>
      match device.attributes.find?
          (fun a => pyEndsWith a.mqtt_topic_suffix control_name && a.writable) with
      | none =>
        rejectedWith topic ("Writable attribute not found: " ++ control_name)
          env.rate
      | some attr =>
        let cw := env.rate.can_write env.now
          (device.device_id ++ "_" ++ control_name)
        if !cw.1 then
          rejectedWith topic cw.2.1 cw.2.2
        else
          let rl := cw.2.2
          if attr.ha_component == "number" then
            match parsePyFloat payload with
            | none => rejectedWith topic ("Invalid number value: " ++ payload) rl
            | some v =>
              let chk :=
                if attr.method_name == "set_hot_water_setpoint_constant" then
                  validate_dhw_temperature v
                else if attr.method_name == "set_heating_curve_offset" then
                  env.validate_heating_curve_offset v
                else if attr.method_name == "set_season_threshold_heating_limit" then
                  env.validate_season_threshold v
                else (true, "OK")
              if !chk.1 then rejectedWith topic chk.2 rl
              else executeWrite env topic attr (.num v) rl
          else if attr.ha_component == "select" then
            let payload_clean := pyLower (pyStrip payload)
            if attr.method_name == "set_season_selection_manual" then
              match lookupAssoc season_reverse_map payload_clean with
              | none =>
                rejectedWith topic ("Invalid season selection: " ++ payload) rl
              | some enum_name =>
                let chk := env.validate_season_selection enum_name
                if !chk.1 then rejectedWith topic chk.2 rl
                else executeWrite env topic attr (.seasonSel enum_name) rl
            else if attr.method_name == "set_heating_circuit_energy_mode" then
              match lookupAssoc energy_reverse_map payload_clean with
              | none =>
                rejectedWith topic ("Invalid energy mode: " ++ payload) rl
              | some enum_name =>
                let chk := env.validate_energy_mode enum_name
                if !chk.1 then rejectedWith topic chk.2 rl
                else executeWrite env topic attr (.energyMode enum_name) rl
            else
              rejectedWith topic ("Unknown select control: " ++ attr.method_name)
                rl
          else if attr.ha_component == "button" then
            if pyUpper payload != "1" && pyUpper payload != "PRESS" then
              rejectedWith topic ("Invalid button payload: " ++ payload) rl
            else executeWrite env topic attr .press rl
          else
            rejectedWith topic
              ("Unsupported component type for write: " ++ attr.ha_component) rl

/-- Observable outcome of one `handle_command` call.  `escaped` is the
exception propagating to `handle_command`'s caller. -/
structure CmdResult where
  published : List (String × String)
  rate : RateLimiter
  writeCalled : Option (String × ParsedValue)
  escaped : Option String

/-- `handle_command` with its outer `except Exception` handler: an
exception raised by the body is logged, published as `str(e)` to the
error subtopic, and not propagated. -/
def handle_command (env : CmdEnv) (topic payload : String) : CmdResult :=
  let inner := handle_command_try env topic payload
  match inner.raised with
  | none =>
    { published := inner.published, rate := inner.rate,
      writeCalled := inner.writeCalled, escaped := none }
  | some e =>
    { published := inner.published ++ [publish_command_error topic e],
      rate := inner.rate, writeCalled := inner.writeCalled, escaped := none }

/-! ### `mqtt_client.py` — `reconnect_with_backoff`

The procedure sleeps `current_delay`, then attempts `connect()`; on
failure the delay doubles (capped at the configured ceiling) and the
loop repeats.  `outcomes` lists the results of the successive
`connect()` attempts; the run returns the sleeps performed, in order,
and whether it returned successfully within the given outcomes. -/

def reconnect_with_backoff (current_delay max_delay : ℚ) :
    List Bool → List ℚ × Bool
  | [] => ([], false)
  | ok :: rest =>
    if ok then ([current_delay], true)
    else
      let r := reconnect_with_backoff (min (2 * current_delay) max_delay)
        max_delay rest
      (current_delay :: r.1, r.2)

/-! ### Concrete fixtures (from `mappings.py`) used by the witnesses -/

/-- The DHW setpoint control attribute, as constructed in
`mappings.py`. -/
def hot_water_setpoint_attr : DeviceAttribute :=
  { device_class := "StorageSystem"
    method_name := "set_hot_water_setpoint_constant"
    friendly_name := "Hot Water Setpoint"
    mqtt_topic_suffix := "controls/hot_water_setpoint"
    writable := true
    ha_component := "number"
    ha_config := [("device_class", "temperature"),
      ("unit_of_measurement", "°C"), ("min", "40.0"), ("max", "60.0"),
      ("step", "0.5"), ("mode", "slider")] }

/-- The `cooling_actual` sensor attribute, as constructed in
`mappings.py`. -/
def cooling_actual_attr : DeviceAttribute :=
  { device_class := "StorageSystem"
    method_name := "cooling_actual"
    friendly_name := "Cooling Actual Temperature"
    mqtt_topic_suffix := "sensors/cooling_actual"
    writable := false
    ha_component := "sensor"
    ha_config := [("device_class", "temperature"),
      ("unit_of_measurement", "°C"), ("state_class", "measurement")] }

/-- A discovered DHW storage device (Unit 51), as `discover_devices`
builds it for `device_id` `heatpump1` under base topic `kermi`. -/
def storage_dhw_device : KermiDevice :=
  { device_id := "heatpump1_storage_dhw"
    device_type := "storage_dhw"
    unit_id := 51
    attributes := [hot_water_setpoint_attr]
    mqtt_base_topic := "kermi/heatpump1/storage_dhw"
    available := true }

/-- The command topic for the DHW setpoint control of the fixture
device. -/
def dhw_set_topic : String :=
  "kermi/heatpump1/storage_dhw/controls/hot_water_setpoint/set"

/-- Command environment whose protocol write succeeds; the
spec-modelled abstract validators accept everything. -/
def env_write_ok : CmdEnv :=
  { devices := [storage_dhw_device]
    rate := ⟨60, []⟩
    now := 1000
    validate_heating_curve_offset := fun _ => (true, "OK")
    validate_season_threshold := fun _ => (true, "OK")
    validate_season_selection := fun _ => (true, "OK")
    validate_energy_mode := fun _ => (true, "OK")
    write := fun _ _ => Except.ok ()
    confirmPoll := Except.ok () }

/-- Command environment whose protocol write raises `"boom"`. -/
def env_write_fails : CmdEnv :=
  { devices := [storage_dhw_device]
    rate := ⟨60, []⟩
    now := 1000
    validate_heating_curve_offset := fun _ => (true, "OK")
    validate_season_threshold := fun _ => (true, "OK")
    validate_season_selection := fun _ => (true, "OK")
    validate_energy_mode := fun _ => (true, "OK")
    write := fun _ _ => Except.error "boom"
    confirmPoll := Except.ok () }

/-! ### C1 — out-of-range DHW setpoint commands are rejected -/

/-- C1: any inbound command whose payload parses to `75`, addressed to
the DHW setpoint control (`set_hot_water_setpoint_constant`, a number
control), that reaches the safety-validation step (well-formed command
topic, device and writable attribute resolved, rate limit passed) is
rejected: the scald-prevention out-of-safe-range message for the
`[40, 60]` range is the only publish, on the command topic's `/error`
subtopic, and no write operation is invoked on the protocol
collaborator. -/
theorem dhw_setpoint_75_rejected (env : CmdEnv) (topic payload : String)
    (device : KermiDevice) (attr : DeviceAttribute)
    (hn : 5 ≤ (pySplit topic '/').length)
    (hc : (pySplit topic '/').getD ((pySplit topic '/').length - 3) "" =
      "controls")
    (hs : (pySplit topic '/').getD ((pySplit topic '/').length - 1) "" = "set")
    (hdev : env.devices.find? (fun d => pyStartsWith topic d.mqtt_base_topic) =
      some device)
    (hattr : device.attributes.find? (fun a =>
      pyEndsWith a.mqtt_topic_suffix
        ((pySplit topic '/').getD ((pySplit topic '/').length - 2) "")
      && a.writable) = some attr)
    (hmeth : attr.method_name = "set_hot_water_setpoint_constant")
    (hcomp : attr.ha_component = "number")
    (hrate : (env.rate.can_write env.now (device.device_id ++ "_" ++
      ((pySplit topic '/').getD ((pySplit topic '/').length - 2) ""))).1 = true)
    (hpay : parsePyFloat payload = some 75) :
    (handle_command env topic payload).writeCalled = none ∧
    (handle_command env topic payload).published =
      [(topic ++ "/error",
        "DHW temperature value 75 outside safe range [40, 60]")] ∧
    (handle_command env topic payload).escaped = none := by
  have h5 : ¬ ((pySplit topic '/').length < 5) := Nat.not_lt.mpr hn
  have hval : validate_dhw_temperature 75 =
      (false, "DHW temperature value 75 outside safe range [40, 60]") := by
    decide
  unfold handle_command handle_command_try
  simp only [h5, decide_eq_false_iff_not, hc, hs, hdev, hattr, hmeth, hcomp,
    hrate, hpay, hval]
  simp [rejectedWith, publish_command_error]

/-- C1 witness: the concrete fixture command `"75"` on the DHW setpoint
topic. -/
theorem dhw_setpoint_75_rejected_witness :
    parsePyFloat "75" = some 75 ∧
    (handle_command env_write_ok dhw_set_topic "75").writeCalled = none ∧
    (handle_command env_write_ok dhw_set_topic "75").published =
      [(dhw_set_topic ++ "/error",
        "DHW temperature value 75 outside safe range [40, 60]")] ∧
    (handle_command env_write_ok dhw_set_topic "75").escaped = none :=
  ⟨by decide,
   dhw_setpoint_75_rejected env_write_ok dhw_set_topic "75"
     storage_dhw_device hot_water_setpoint_attr (by decide) (by decide)
     (by decide) (by decide) (by decide) (by decide) (by decide) (by decide)
     (by decide)⟩

/-! ### C2 — when rate-limiter timestamps advance -/

/-- C2 counterexample: the unparseable payload `"abc"` on the DHW
setpoint topic is rejected (no write is invoked, an invalid-number
error is published), yet `last_write` for its key — empty beforehand —
has advanced to the command's clock value, contradicting the claim
that a command attempt rejected after the rate-limit check does not
advance `last_write` for its key. -/
theorem rate_limiter_advance_counterexample :
    (handle_command env_write_ok dhw_set_topic "abc").writeCalled = none ∧
    (handle_command env_write_ok dhw_set_topic "abc").published =
      [(dhw_set_topic ++ "/error", "Invalid number value: abc")] ∧
    lookupAssoc env_write_ok.rate.last_write
      "heatpump1_storage_dhw_hot_water_setpoint" = none ∧
    lookupAssoc (handle_command env_write_ok dhw_set_topic "abc").rate.last_write
      "heatpump1_storage_dhw_hot_water_setpoint" = some 1000 := by
  decide

/-- C2 amended: `last_write` advances exactly when `can_write`'s own
check passes — at check time, hence also for commands rejected later by
payload parsing, safety validation, or a failed protocol write.  A
rejection by the rate limiter itself leaves the state unchanged; a
passing check sets the key's stamp to `now` — which is no smaller than
any stamp the key held, so per-key stamps are monotonic non-decreasing
— and leaves every other key untouched. -/
theorem rate_limiter_advances_on_check (rl : RateLimiter) (now : ℚ)
    (key : String) (hmin : 0 ≤ rl.min_interval) :
    ((rl.can_write now key).1 = false → (rl.can_write now key).2.2 = rl) ∧
    ((rl.can_write now key).1 = true →
      lookupAssoc (rl.can_write now key).2.2.last_write key = some now ∧
      (∀ k, k ≠ key → lookupAssoc (rl.can_write now key).2.2.last_write k =
        lookupAssoc rl.last_write k) ∧
      (∀ q, lookupAssoc rl.last_write key = some q → q ≤ now)) := by
  constructor
  · intro h
    unfold RateLimiter.can_write at h ⊢
    by_cases hlt :
        qSub now ((lookupAssoc rl.last_write key).getD 0) < rl.min_interval
    · simp [hlt]
    · simp [hlt] at h
  · intro h
    unfold RateLimiter.can_write at h ⊢
    by_cases hlt :
        qSub now ((lookupAssoc rl.last_write key).getD 0) < rl.min_interval
    · simp [hlt] at h
    · simp only [hlt, if_false]
      refine ⟨lookupAssoc_setAssoc_self _ _ _,
        fun k hk => lookupAssoc_setAssoc_other _ _ _ _ hk, fun q hq => ?_⟩
      rw [hq] at hlt
      simp only [Option.getD_some, qSub_eq] at hlt
      linarith [not_lt.mp hlt]

/-- C2 amended witness: a fresh limiter with the default 60-second
interval accepts a write at clock 100 and records the stamp. -/
theorem rate_limiter_advances_on_check_witness :
    0 ≤ (RateLimiter.mk 60 []).min_interval ∧
    (((RateLimiter.mk 60 []).can_write 100 "k").1 = true →
      lookupAssoc ((RateLimiter.mk 60 []).can_write 100 "k").2.2.last_write "k" =
        some 100 ∧
      (∀ j, j ≠ "k" →
        lookupAssoc ((RateLimiter.mk 60 []).can_write 100 "k").2.2.last_write j =
          lookupAssoc (RateLimiter.mk 60 []).last_write j) ∧
      (∀ q, lookupAssoc (RateLimiter.mk 60 []).last_write "k" = some q →
        q ≤ 100)) :=
  ⟨by decide, (rate_limiter_advances_on_check (RateLimiter.mk 60 []) 100 "k"
    (by decide)).2⟩

/-! ### C3 / C4 — poll cycle failure and availability recovery -/

theorem poll_process_available (now : ℚ) (all : AllData) (d : KermiDevice) :
    (poll_process now all d).1.available = d.available := by
  unfold poll_process
  cases bucketFor all d.device_type <;> rfl

theorem poll_process_topic (now : ℚ) (all : AllData) (d : KermiDevice) :
    (poll_process now all d).1.get_availability_topic =
      d.get_availability_topic := by
  unfold poll_process
  cases bucketFor all d.device_type <;> rfl

/-- C3: when the bulk read raises, `poll_and_publish` marks every
device unavailable, attempts an offline status publish for each device
(if the broker dies mid-way the attempts stop there and the publish
failure is swallowed), publishes no state, and re-raises the original
exception to the caller. -/
theorem poll_bulk_read_failure (devices : List KermiDevice) (now : ℚ)
    (e : String) (failsAt : Option ℕ) :
    (∀ d ∈ (poll_and_publish devices now (Except.error e) failsAt).devices,
      d.available = false) ∧
    (poll_and_publish devices now (Except.error e) failsAt).availabilityAttempted
      = devices.map (fun d => (d.get_availability_topic, "offline")) ∧
    (failsAt = none →
      (poll_and_publish devices now (Except.error e) failsAt).availabilityPublished
        = (poll_and_publish devices now (Except.error e) failsAt).availabilityAttempted) ∧
    (poll_and_publish devices now (Except.error e) failsAt).raised = some e ∧
    (poll_and_publish devices now (Except.error e) failsAt).statePublished = [] := by
  refine ⟨?_, ?_, ?_, rfl, rfl⟩
  · intro d hd
    simp only [poll_and_publish, List.mem_map] at hd
    obtain ⟨d0, _, rfl⟩ := hd
    rfl
  · simp [poll_and_publish, List.map_map, Function.comp,
      KermiDevice.get_availability_topic]
  · intro hf
    subst hf
    rfl

/-- C3 witness: the theorem at a concrete one-device registry, the
error `"boom"` and no broker failure. -/
theorem poll_bulk_read_failure_witness :
    (∀ d ∈ (poll_and_publish [storage_dhw_device] 5 (Except.error "boom")
      none).devices, d.available = false) ∧
    (poll_and_publish [storage_dhw_device] 5 (Except.error "boom")
      none).availabilityAttempted =
      [storage_dhw_device].map (fun d => (d.get_availability_topic, "offline")) ∧
    ((none : Option ℕ) = none →
      (poll_and_publish [storage_dhw_device] 5 (Except.error "boom")
        none).availabilityPublished =
      (poll_and_publish [storage_dhw_device] 5 (Except.error "boom")
        none).availabilityAttempted) ∧
    (poll_and_publish [storage_dhw_device] 5 (Except.error "boom")
      none).raised = some "boom" ∧
    (poll_and_publish [storage_dhw_device] 5 (Except.error "boom")
      none).statePublished = [] :=
  poll_bulk_read_failure [storage_dhw_device] 5 "boom" none

/-- C4: a successful `poll_and_publish` cycle leaves every device
available and raises nothing; an online status is (re)published for
every device exactly when some device had been marked unavailable, and
no availability publish occurs otherwise. -/
theorem poll_success_availability (devices : List KermiDevice) (now : ℚ)
    (data : AllData) (failsAt : Option ℕ) :
    (∀ d ∈ (poll_and_publish devices now (Except.ok data) failsAt).devices,
      d.available = true) ∧
    (poll_and_publish devices now (Except.ok data) failsAt).raised = none ∧
    (poll_and_publish devices now (Except.ok data) failsAt).availabilityPublished
      = (if devices.all (fun d => d.available) then []
         else (poll_and_publish devices now (Except.ok data) failsAt).devices.map
           (fun d => (d.get_availability_topic, "online"))) := by
  have hall : ((devices.map (poll_process now data)).map Prod.fst).all
      (fun d => d.available) = devices.all (fun d => d.available) := by
    rw [List.map_map, List.all_map]
    congr 1
    funext d
    exact poll_process_available now data d
  cases hav : devices.all (fun d => d.available) with
  | true =>
    have hc : (!((devices.map (poll_process now data)).map Prod.fst).all
        (fun d => d.available)) = false := by rw [hall, hav]; rfl
    have heq : poll_and_publish devices now (Except.ok data) failsAt =
        { devices := (devices.map (poll_process now data)).map Prod.fst,
          statePublished :=
            ((devices.map (poll_process now data)).map Prod.snd).flatten,
          availabilityAttempted := [], availabilityPublished := [],
          raised := none } := by
      simp only [poll_and_publish]
      rw [hc]
      rfl
    rw [heq]
    refine ⟨?_, rfl, ?_⟩
    · intro d hd
      obtain ⟨p, hp, rfl⟩ := List.mem_map.mp hd
      obtain ⟨d0, hd0, rfl⟩ := List.mem_map.mp hp
      rw [poll_process_available]
      exact List.all_eq_true.mp hav d0 hd0
    · rfl
  | false =>
    have hc : (!((devices.map (poll_process now data)).map Prod.fst).all
        (fun d => d.available)) = true := by rw [hall, hav]; rfl
    have heq : poll_and_publish devices now (Except.ok data) failsAt =
        { devices := ((devices.map (poll_process now data)).map Prod.fst).map
            (fun d => { d with available := true }),
          statePublished :=
            ((devices.map (poll_process now data)).map Prod.snd).flatten,
          availabilityAttempted :=
            (((devices.map (poll_process now data)).map Prod.fst).map
              (fun d => { d with available := true })).map
              (fun d => (d.get_availability_topic, "online")),
          availabilityPublished :=
            (((devices.map (poll_process now data)).map Prod.fst).map
              (fun d => { d with available := true })).map
              (fun d => (d.get_availability_topic, "online")),
          raised := none } := by
      simp only [poll_and_publish]
      rw [hc]
      rfl
    rw [heq]
    refine ⟨?_, rfl, ?_⟩
    · intro d hd
      obtain ⟨p, _, rfl⟩ := List.mem_map.mp hd
      rfl
    · rfl

/-- C4 witness: the theorem at a concrete registry holding one
unavailable device and an empty bulk result. -/
theorem poll_success_availability_witness :
    (∀ d ∈ (poll_and_publish
        [{ storage_dhw_device with available := false }] 5
        (Except.ok ⟨[], [], []⟩) none).devices, d.available = true) ∧
    (poll_and_publish [{ storage_dhw_device with available := false }] 5
      (Except.ok ⟨[], [], []⟩) none).raised = none ∧
    (poll_and_publish [{ storage_dhw_device with available := false }] 5
      (Except.ok ⟨[], [], []⟩) none).availabilityPublished
      = (if [{ storage_dhw_device with available := false }].all
            (fun d => d.available) then []
         else (poll_and_publish
            [{ storage_dhw_device with available := false }] 5
            (Except.ok ⟨[], [], []⟩) none).devices.map
           (fun d => (d.get_availability_topic, "online"))) :=
  poll_success_availability [{ storage_dhw_device with available := false }] 5
    ⟨[], [], []⟩ none

/-! ### C5 — cross-device-type exclusive attributes are never published -/

/-- C5: the filter rejects heating-only attributes on a domestic-hot-
water device and DHW-only attributes on a heating device for every
value; concretely, `cooling_actual` (heating-exclusive) with value
`0.0` is rejected on a `storage_dhw` device, and the same attribute
with value `3.5` is accepted on a `storage_heating` device. -/
theorem filter_cross_device_exclusive :
    (∀ (attr : DeviceAttribute) (v : RawValue),
      HEATING_ONLY_ATTRIBUTES.contains attr.method_name = true →
      should_publish_attribute "storage_dhw" attr (some v) = false) ∧
    (∀ (attr : DeviceAttribute) (v : RawValue),
      DHW_ONLY_ATTRIBUTES.contains attr.method_name = true →
      should_publish_attribute "storage_heating" attr (some v) = false) ∧
    should_publish_attribute "storage_dhw" cooling_actual_attr
      (some (RawValue.rfloat 0)) = false ∧
    should_publish_attribute "storage_heating" cooling_actual_attr
      (some (RawValue.rfloat (mkRat 7 2))) = true := by
  refine ⟨?_, ?_, by decide, by decide⟩
  · intro attr v h
    have h' : attr.method_name ∈ HEATING_ONLY_ATTRIBUTES := by simpa using h
    simp only [should_publish_attribute]
    split
    · rfl
    · simp [h']
  · intro attr v h
    have h' : attr.method_name ∈ DHW_ONLY_ATTRIBUTES := by simpa using h
    simp only [should_publish_attribute]
    split
    · rfl
    · simp [h']

/-- C5 witness: `cooling_actual` is heating-only, so an arbitrary
string value on a DHW device is filtered. -/
theorem filter_cross_device_exclusive_witness :
    HEATING_ONLY_ATTRIBUTES.contains cooling_actual_attr.method_name = true ∧
    should_publish_attribute "storage_dhw" cooling_actual_attr
      (some (RawValue.rstr "x")) = false :=
  ⟨by decide, filter_cross_device_exclusive.1 cooling_actual_attr
    (RawValue.rstr "x") (by decide)⟩

/-! ### C6 — enumerated-control round trip -/

/-- C6: for every enumeration member with a defined forward mapping,
publishing encodes the member's name through the forward renaming
table, and the command side normalizes the payload (strip, casefold)
and reverse-maps it through the inverse table; the original member
name — and hence, since `EnergyMode[name]`/`SeasonSelection[name]` is
name lookup, the original member — is recovered. -/
theorem enum_roundtrip :
    (∀ name tok, (name, tok) ∈ energy_mode_map →
      lookupAssoc energy_reverse_map (pyLower (pyStrip tok)) = some name) ∧
    (∀ name tok, (name, tok) ∈ season_map →
      lookupAssoc season_reverse_map (pyLower (pyStrip tok)) = some name) := by
  constructor
  · intro name tok h
    simp only [energy_mode_map, List.mem_cons, List.not_mem_nil, or_false,
      Prod.mk.injEq] at h
    rcases h with ⟨rfl, rfl⟩ | ⟨rfl, rfl⟩ | ⟨rfl, rfl⟩ | ⟨rfl, rfl⟩ | ⟨rfl, rfl⟩ <;>
      decide
  · intro name tok h
    simp only [season_map, List.mem_cons, List.not_mem_nil, or_false,
      Prod.mk.injEq] at h
    rcases h with ⟨rfl, rfl⟩ | ⟨rfl, rfl⟩ | ⟨rfl, rfl⟩ | ⟨rfl, rfl⟩ <;> decide

/-- C6 witness: the `ECO` energy mode and the `AUTO` season survive the
round trip. -/
theorem enum_roundtrip_witness :
    ("ECO", "eco") ∈ energy_mode_map ∧
    lookupAssoc energy_reverse_map (pyLower (pyStrip "eco")) = some "ECO" ∧
    ("AUTO", "auto") ∈ season_map ∧
    lookupAssoc season_reverse_map (pyLower (pyStrip "auto")) = some "AUTO" :=
  ⟨by decide, enum_roundtrip.1 "ECO" "eco" (by decide),
   by decide, enum_roundtrip.2 "AUTO" "auto" (by decide)⟩

/-! ### C7 — reconnect backoff sleeps -/

/-- C7 counterexample: with initial delay 1 and ceiling 60, a bus
collaborator whose `connect()` fails exactly twice and then succeeds
does not make `reconnect_with_backoff` sleep exactly `[delay,
2*delay]`: the code sleeps *before* every attempt, the successful one
included, so three sleeps occur. -/
theorem reconnect_two_failures_counterexample :
    ¬ ((reconnect_with_backoff 1 60 [false, false, true]).1 = [1, 2] ∧
       (reconnect_with_backoff 1 60 [false, false, true]).2 = true) := by
  intro h
  have h3 : (reconnect_with_backoff 1 60 [false, false, true]).1.length = 3 :=
    rfl
  rw [h.1] at h3
  simp at h3

/-- C7 corrected: when `connect()` fails exactly twice and then
succeeds, `reconnect_with_backoff` returns successfully after sleeping
`delay`, `min (2*delay) ceiling` and `min (2*(min (2*delay) ceiling))
ceiling` — a sleep before every attempt, the successful third one
included, each doubled delay capped at the ceiling. -/
theorem reconnect_two_failures_sleeps (d M : ℚ) :
    reconnect_with_backoff d M [false, false, true] =
      ([d, min (2 * d) M, min (2 * min (2 * d) M) M], true) := rfl

/-! ### C8 — missing bulk-read keys are silently skipped -/

/-- C8: when the bulk-read bucket has no entry for an attribute's key,
the attribute contributes no publish at all; `publish_attribute` is a
total function, so no error is raised by the publishing step either. -/
theorem missing_key_silently_skipped (device : KermiDevice)
    (data : List (String × RawValue)) (attr : DeviceAttribute)
    (h : lookupAssoc data attr.method_name = none) :
    publish_attribute device data attr = none := by
  unfold publish_attribute
  rw [h]

/-- C8 witness: a bucket without the `cooling_actual` key yields no
publish for that attribute. -/
theorem missing_key_silently_skipped_witness :
    lookupAssoc [("other_key", RawValue.rint 1)]
      cooling_actual_attr.method_name = none ∧
    publish_attribute storage_dhw_device [("other_key", RawValue.rint 1)]
      cooling_actual_attr = none :=
  ⟨by decide, missing_key_silently_skipped storage_dhw_device
    [("other_key", RawValue.rint 1)] cooling_actual_attr (by decide)⟩

/-! ### C9 — unknown enumeration codes degrade to the raw string -/

/-- A representative `EnergyMode` enum table (the numeric member codes
live in the external `kermi_xcenter` library; the mappings comment
documents codes 0–4).  The C9 theorem itself quantifies over arbitrary
enum tables. -/
def energy_mode_enum : EnumSpec :=
  ⟨"EnergyMode",
   [(0, "OFF"), (1, "ECO"), (2, "NORMAL"), (3, "COMFORT"), (4, "CUSTOM")]⟩

/-- The read-side energy-mode sensor attribute from `mappings.py`. -/
def energy_mode_state_attr : DeviceAttribute :=
  { device_class := "StorageSystem"
    method_name := "heating_circuit_energy_mode"
    friendly_name := "Energy Mode (Current)"
    mqtt_topic_suffix := "sensors/energy_mode"
    writable := false
    ha_component := "sensor"
    value_enum := some energy_mode_enum
    ha_config := [("icon", "mdi:leaf")] }

/-- C9: for every enumerated attribute and every raw value matching no
enumeration member, the publish-side transformation degrades to the raw
value's string form.  `transform_value` is a total function — the
`except (ValueError, KeyError)` fallback in the source is this
equation — so no exception escapes the step for any raw value. -/
theorem enum_decode_failure_degrades (attr : DeviceAttribute)
    (es : EnumSpec) (v : RawValue)
    (h1 : attr.value_enum = some es)
    (h2 : attr.ha_component ≠ "binary_sensor")
    (h3 : es.decodeMember v = none) :
    transform_value attr v = pyStr v := by
  have hb : (attr.ha_component == "binary_sensor") = false := by simp [h2]
  simp [transform_value, hb, h1, h3]

/-- C9 witness: the raw code `7` matches no `EnergyMode` member, so the
energy-mode sensor publishes `str(7)`. -/
theorem enum_decode_failure_degrades_witness :
    energy_mode_state_attr.value_enum = some energy_mode_enum ∧
    energy_mode_state_attr.ha_component ≠ "binary_sensor" ∧
    energy_mode_enum.decodeMember (RawValue.rint 7) = none ∧
    transform_value energy_mode_state_attr (RawValue.rint 7) =
      pyStr (RawValue.rint 7) :=
  ⟨rfl, by decide, by decide,
   enum_decode_failure_degrades energy_mode_state_attr energy_mode_enum
     (RawValue.rint 7) rfl (by decide) (by decide)⟩

/-! ### C10 — `handle_command` never propagates; failed writes report twice -/

/-- C10: `handle_command` returns normally on every inbound
topic/payload (the outer handler catches everything the body raises),
and when the protocol collaborator's write raises `e` on a resolved
number-control command, exactly two messages go to the command topic's
`/error` subtopic before it returns: `"Write operation failed: e"`
from the inner write handler and `str(e)` from the outer catch-all. -/
theorem handle_command_total_and_write_failure :
    (∀ (env : CmdEnv) (topic payload : String),
      (handle_command env topic payload).escaped = none) ∧
    (∀ (env : CmdEnv) (topic payload : String) (device : KermiDevice)
      (attr : DeviceAttribute) (v : ℚ) (e : String),
      5 ≤ (pySplit topic '/').length →
      (pySplit topic '/').getD ((pySplit topic '/').length - 3) "" =
        "controls" →
      (pySplit topic '/').getD ((pySplit topic '/').length - 1) "" = "set" →
      env.devices.find? (fun d => pyStartsWith topic d.mqtt_base_topic) =
        some device →
      device.attributes.find? (fun a =>
        pyEndsWith a.mqtt_topic_suffix
          ((pySplit topic '/').getD ((pySplit topic '/').length - 2) "")
        && a.writable) = some attr →
      attr.ha_component = "number" →
      (env.rate.can_write env.now (device.device_id ++ "_" ++
        ((pySplit topic '/').getD ((pySplit topic '/').length - 2) ""))).1 =
        true →
      parsePyFloat payload = some v →
      (if attr.method_name == "set_hot_water_setpoint_constant" then
        validate_dhw_temperature v
      else if attr.method_name == "set_heating_curve_offset" then
        env.validate_heating_curve_offset v
      else if attr.method_name == "set_season_threshold_heating_limit" then
        env.validate_season_threshold v
      else (true, "OK")).1 = true →
      env.write attr.method_name (ParsedValue.num v) = Except.error e →
      (handle_command env topic payload).published =
        [(topic ++ "/error", "Write operation failed: " ++ e),
         (topic ++ "/error", e)] ∧
      (handle_command env topic payload).writeCalled =
        some (attr.method_name, ParsedValue.num v)) := by
  constructor
  · intro env topic payload
    simp only [handle_command]
    split <;> rfl
  · intro env topic payload device attr v e hn hc hs hdev hattr hcomp hrate
      hpay hchk hwrite
    have h5 : ¬ ((pySplit topic '/').length < 5) := Nat.not_lt.mpr hn
    unfold handle_command handle_command_try executeWrite
    simp only [h5, decide_eq_false_iff_not, hc, hs, hdev, hattr, hcomp, hrate,
      hpay, hchk, hwrite]
    simp [publish_command_error]

/-- C10 witness: an arbitrary non-command topic returns normally, and
the in-range payload `"50"` on the DHW setpoint against a write that
raises `"boom"` produces exactly the two error publishes. -/
theorem handle_command_total_and_write_failure_witness :
    (handle_command env_write_ok "not a command topic" "x").escaped = none ∧
    env_write_fails.write hot_water_setpoint_attr.method_name
      (ParsedValue.num 50) = Except.error "boom" ∧
    (handle_command env_write_fails dhw_set_topic "50").published =
      [(dhw_set_topic ++ "/error", "Write operation failed: boom"),
       (dhw_set_topic ++ "/error", "boom")] ∧
    (handle_command env_write_fails dhw_set_topic "50").writeCalled =
      some (hot_water_setpoint_attr.method_name, ParsedValue.num 50) :=
  ⟨handle_command_total_and_write_failure.1 env_write_ok
     "not a command topic" "x",
   rfl,
   (handle_command_total_and_write_failure.2 env_write_fails dhw_set_topic
     "50" storage_dhw_device hot_water_setpoint_attr 50 "boom" (by decide)
     (by decide) (by decide) (by decide) (by decide) (by decide) (by decide)
     (by decide) (by decide) rfl).1,
   (handle_command_total_and_write_failure.2 env_write_fails dhw_set_topic
     "50" storage_dhw_device hot_water_setpoint_attr 50 "boom" (by decide)
     (by decide) (by decide) (by decide) (by decide) (by decide) (by decide)
     (by decide) (by decide) rfl).2⟩

end Kermi2Mqtt
